import Mathlib

/-!
# xt_HL.c (linux-2.6.34, net/netfilter): TTL / Hop Limit match and target

A shallow embedding of the functions of `net/netfilter/xt_HL.c`:

* `ttl_mt`  (IPv4 `ttl` match),
* `hl_mt6`  (IPv6 `hl` match),
* `hl_tg6_check` (checkentry of the IPv6 `HL` target).

The C functions receive pointers into kernel memory and may call `printk`.
The embedding passes that memory around explicitly as an `xt_world`: the packet
(`sk_buff`), the configuration blob of the rule (`par->matchinfo` or
`par->targinfo`) and the kernel log.  Every function returns its C return value
together with the world it leaves behind.

The `u8` fields are natural numbers; the comparisons of the source are done
after integer promotion, so no reduction modulo 256 takes part in them.

The enumerators `IPT_TTL_*`, `IP6T_HL_*` and the macro `IP6T_HL_MAXMODE` are
declared in headers (`ipt_ttl.h`, `ip6t_hl.h`, `ip6t_HL.h`) which are not part
of the source file; they are parameters of the embedding.
-/

namespace XtHL

/-! ## Data model -/

/-- The fields of `struct iphdr` other than `ttl` are kept so that packets can
differ outside the field the match reads. -/
structure iphdr where
  tos : Nat
  tot_len : Nat
  id : Nat
  frag_off : Nat
  ttl : Nat
  protocol : Nat
  check : Nat
  saddr : Nat
  daddr : Nat
  deriving DecidableEq, Repr

/-- The fields of `struct ipv6hdr`; the match reads `hop_limit` only. -/
structure ipv6hdr where
  flow_lbl : Nat
  payload_len : Nat
  nexthdr : Nat
  hop_limit : Nat
  saddr : Nat
  daddr : Nat
  deriving DecidableEq, Repr

/-- A packet buffer.  `ip_hdr` and `ipv6_hdr` are what the accessors
`ip_hdr(skb)` and `ipv6_hdr(skb)` of the source return; `data` is the rest of
the packet. -/
structure sk_buff where
  ip_hdr : iphdr
  ipv6_hdr : ipv6hdr
  data : List Nat
  deriving DecidableEq, Repr

/-- The match configuration `struct ipt_ttl_info` (`__u8 mode; __u8 ttl;`). -/
structure ipt_ttl_info where
  mode : Nat
  ttl : Nat
  deriving DecidableEq, Repr

/-- The match configuration `struct ip6t_hl_info` (`__u8 mode; __u8 hop_limit;`). -/
structure ip6t_hl_info where
  mode : Nat
  hop_limit : Nat
  deriving DecidableEq, Repr

/-- The target configuration `struct ip6t_HL_info` (`__u8 mode; __u8 hop_limit;`). -/
structure ip6t_HL_info where
  mode : Nat
  hop_limit : Nat
  deriving DecidableEq, Repr

/-- The log levels the source passes to `printk`. -/
inductive kern_level where
  | KERN_WARNING
  deriving DecidableEq, Repr

/-- One call of `printk`: the level and the formatted text. -/
structure printk_record where
  level : kern_level
  text : String
  deriving DecidableEq, Repr

/-- The memory one invocation works on: the packet, the configuration of the
rule (of type `α`), and the kernel log. -/
structure xt_world (α : Type) where
  skb : sk_buff
  info : α
  klog : List printk_record
  deriving DecidableEq, Repr

/-- The call `printk(level text)`: appends one record to the kernel log. -/
def printk {α : Type} (level : kern_level) (text : String) (w : xt_world α) : xt_world α :=
  { w with klog := w.klog ++ [{ level := level, text := text }] }

/-! ## Constants of the missing headers -/

/-- The enumerators of `linux/netfilter_ipv4/ipt_ttl.h`. -/
structure ipt_ttl_h where
  IPT_TTL_EQ : Nat
  IPT_TTL_NE : Nat
  IPT_TTL_LT : Nat
  IPT_TTL_GT : Nat
  deriving DecidableEq, Repr

/-- The enumerators of `linux/netfilter_ipv6/ip6t_hl.h`. -/
structure ip6t_hl_h where
  IP6T_HL_EQ : Nat
  IP6T_HL_NE : Nat
  IP6T_HL_LT : Nat
  IP6T_HL_GT : Nat
  deriving DecidableEq, Repr

/-- The enumerators and the macro of `linux/netfilter_ipv6/ip6t_HL.h`. -/
structure ip6t_HL_h where
  IP6T_HL_SET : Nat
  IP6T_HL_INC : Nat
  IP6T_HL_DEC : Nat
  IP6T_HL_MAXMODE : Nat
  deriving DecidableEq, Repr

/-- The case labels of the `switch` in `ttl_mt` are pairwise different, as C
requires of the labels of one `switch`. -/
def ipt_ttl_h.distinct (c : ipt_ttl_h) : Prop :=
  c.IPT_TTL_EQ ≠ c.IPT_TTL_NE ∧ c.IPT_TTL_EQ ≠ c.IPT_TTL_LT ∧ c.IPT_TTL_EQ ≠ c.IPT_TTL_GT ∧
  c.IPT_TTL_NE ≠ c.IPT_TTL_LT ∧ c.IPT_TTL_NE ≠ c.IPT_TTL_GT ∧ c.IPT_TTL_LT ≠ c.IPT_TTL_GT

instance (c : ipt_ttl_h) : Decidable c.distinct := by
  unfold ipt_ttl_h.distinct; infer_instance

/-- The case labels of the `switch` in `hl_mt6` are pairwise different. -/
def ip6t_hl_h.distinct (c : ip6t_hl_h) : Prop :=
  c.IP6T_HL_EQ ≠ c.IP6T_HL_NE ∧ c.IP6T_HL_EQ ≠ c.IP6T_HL_LT ∧ c.IP6T_HL_EQ ≠ c.IP6T_HL_GT ∧
  c.IP6T_HL_NE ≠ c.IP6T_HL_LT ∧ c.IP6T_HL_NE ≠ c.IP6T_HL_GT ∧ c.IP6T_HL_LT ≠ c.IP6T_HL_GT

instance (c : ip6t_hl_h) : Decidable c.distinct := by
  unfold ip6t_hl_h.distinct; infer_instance

/-- The three target modes are pairwise different values of a `u8` and
`IP6T_HL_MAXMODE` bounds exactly them: a `u8` mode value is at most `IP6T_HL_MAXMODE` iff it is one of
`IP6T_HL_SET`, `IP6T_HL_INC`, `IP6T_HL_DEC`. -/
def ip6t_HL_h.wellFormed (c : ip6t_HL_h) : Prop :=
  c.IP6T_HL_SET ≠ c.IP6T_HL_INC ∧ c.IP6T_HL_SET ≠ c.IP6T_HL_DEC ∧
  c.IP6T_HL_INC ≠ c.IP6T_HL_DEC ∧
  c.IP6T_HL_SET < 256 ∧ c.IP6T_HL_INC < 256 ∧ c.IP6T_HL_DEC < 256 ∧
  ∀ m, m < 256 →
    (m ≤ c.IP6T_HL_MAXMODE ↔ (m = c.IP6T_HL_SET ∨ m = c.IP6T_HL_INC ∨ m = c.IP6T_HL_DEC))

instance (c : ip6t_HL_h) : Decidable c.wellFormed := by
  unfold ip6t_HL_h.wellFormed; infer_instance

/-- The enumerators numbered from 0 in the order EQ, NE, LT, GT. -/
def ipt_ttl_h.std : ipt_ttl_h :=
  { IPT_TTL_EQ := 0, IPT_TTL_NE := 1, IPT_TTL_LT := 2, IPT_TTL_GT := 3 }

/-- The enumerators numbered from 0 in the order EQ, NE, LT, GT. -/
def ip6t_hl_h.std : ip6t_hl_h :=
  { IP6T_HL_EQ := 0, IP6T_HL_NE := 1, IP6T_HL_LT := 2, IP6T_HL_GT := 3 }

/-- The enumerators numbered from 0 in the order SET, INC, DEC, the last one
being the maximal mode. -/
def ip6t_HL_h.std : ip6t_HL_h :=
  { IP6T_HL_SET := 0, IP6T_HL_INC := 1, IP6T_HL_DEC := 2, IP6T_HL_MAXMODE := 2 }

/-! ## The functions of the source -/

/-- The function `ttl_mt` (xt_HL.c, lines 28-49): the `switch` on `info->mode`
compares `ip_hdr(skb)->ttl` with `info->ttl`; the `default` branch logs a
warning and returns `false`. -/
def ttl_mt (c : ipt_ttl_h) (w : xt_world ipt_ttl_info) : Bool × xt_world ipt_ttl_info :=
  let info := w.info
  let ttl := w.skb.ip_hdr.ttl
  if info.mode = c.IPT_TTL_EQ then
    (decide (ttl = info.ttl), w)
  else if info.mode = c.IPT_TTL_NE then
    (decide (ttl ≠ info.ttl), w)
  else if info.mode = c.IPT_TTL_LT then
    (decide (ttl < info.ttl), w)
  else if info.mode = c.IPT_TTL_GT then
    (decide (ttl > info.ttl), w)
  else
    (false, printk kern_level.KERN_WARNING
      ("ipt_ttl: unknown mode " ++ toString info.mode ++ "\n") w)

/-- The function `hl_mt6` (xt_HL.c, lines 51-76): the `switch` on `info->mode`
compares `ipv6_hdr(skb)->hop_limit` with `info->hop_limit`; the `default`
branch logs a warning and returns `false`. -/
def hl_mt6 (c : ip6t_hl_h) (w : xt_world ip6t_hl_info) : Bool × xt_world ip6t_hl_info :=
  let info := w.info
  let ip6h := w.skb.ipv6_hdr
  if info.mode = c.IP6T_HL_EQ then
    (decide (ip6h.hop_limit = info.hop_limit), w)
  else if info.mode = c.IP6T_HL_NE then
    (decide (ip6h.hop_limit ≠ info.hop_limit), w)
  else if info.mode = c.IP6T_HL_LT then
    (decide (ip6h.hop_limit < info.hop_limit), w)
  else if info.mode = c.IP6T_HL_GT then
    (decide (ip6h.hop_limit > info.hop_limit), w)
  else
    (false, printk kern_level.KERN_WARNING
      ("ip6t_hl: unknown mode " ++ toString info.mode ++ "\n") w)

/-- The function `hl_tg6_check` (xt_HL.c, lines 112-127): rejects a mode above
`IP6T_HL_MAXMODE`, then rejects a mode other than `IP6T_HL_SET` with operand 0;
each rejection logs one warning. -/
def hl_tg6_check (c : ip6t_HL_h) (w : xt_world ip6t_HL_info) : Bool × xt_world ip6t_HL_info :=
  let info := w.info
  if info.mode > c.IP6T_HL_MAXMODE then
    (false, printk kern_level.KERN_WARNING
      ("ip6t_HL: invalid or unknown Mode " ++ toString info.mode ++ "\n") w)
  else if info.mode ≠ c.IP6T_HL_SET ∧ info.hop_limit = 0 then
    (false, printk kern_level.KERN_WARNING
      "ip6t_HL: increment/decrement doesn't make sense with value 0\n" w)
  else
    (true, w)

/-! ## The target bodies, which the source file does not contain -/

/-- Modelled from the spec: the mutation modes of a Target Configuration,
"mutation mode ∈ {SET, INC, DEC}" (section 3).  The enumerators of the targets
are used only by `ttl_tg` and `hl_tg6`, whose bodies are missing from the
source file. -/
inductive tg_mode where
  | SET
  | INC
  | DEC
  deriving DecidableEq, Repr

/-- Modelled from the spec: the Target Configuration "{ mutation mode, operand
value (0–255) }" (section 3) read by the missing bodies of `ttl_tg` and
`hl_tg6`. -/
structure tg_info where
  mode : tg_mode
  operand : Nat
  deriving DecidableEq, Repr

/-- Modelled from the spec: the field value the missing targets `ttl_tg` and
`hl_tg6` write (section 4.2): "SET → field := operand.  INC → field :=
min(field + operand, 255).  DEC → field := max(field - operand, 0)."  The
difference is taken in the integers, as the spec writes it (5 - 10 = -5). -/
def tg_new_field (info : tg_info) (field : Nat) : Nat :=
  match info.mode with
  | tg_mode.SET => info.operand
  | tg_mode.INC => min (field + info.operand) 255
  | tg_mode.DEC => Int.toNat (max ((field : Int) - (info.operand : Int)) 0)

/-- Modelled from the spec: the IPv4 target `ttl_tg`, whose body is missing
from the source file.  It rewrites the TTL in place; the header checksum "must
be incrementally recomputed", which is left to the hook `checksum_fixup`
(old header, new TTL ↦ new checksum) of section 9.  The disposition it returns
is not modelled. -/
def ttl_tg (checksum_fixup : iphdr → Nat → Nat) (info : tg_info) (skb : sk_buff) : sk_buff :=
  let new_ttl := tg_new_field info skb.ip_hdr.ttl
  { skb with ip_hdr :=
      { skb.ip_hdr with ttl := new_ttl, check := checksum_fixup skb.ip_hdr new_ttl } }

/-- Modelled from the spec: the IPv6 target `hl_tg6`, whose body is missing
from the source file.  It rewrites the hop limit in place; "IPv6 has no header
checksum so HL mutation needs none".  The disposition it returns is not
modelled. -/
def hl_tg6 (info : tg_info) (skb : sk_buff) : sk_buff :=
  { skb with ipv6_hdr :=
      { skb.ipv6_hdr with hop_limit := tg_new_field info skb.ipv6_hdr.hop_limit } }

/-! ## Sample packets and worlds -/

/-- An IPv4 header with TTL `v`. -/
def iphdr.withTtl (v : Nat) : iphdr :=
  { tos := 0, tot_len := 40, id := 7, frag_off := 0, ttl := v, protocol := 6,
    check := 0, saddr := 167772161, daddr := 167772162 }

/-- An IPv6 header with hop limit `v`. -/
def ipv6hdr.withHopLimit (v : Nat) : ipv6hdr :=
  { flow_lbl := 0, payload_len := 20, nexthdr := 6, hop_limit := v, saddr := 1, daddr := 2 }

/-- A packet whose TTL and hop limit are both `v`. -/
def sk_buff.withField (v : Nat) : sk_buff :=
  { ip_hdr := iphdr.withTtl v, ipv6_hdr := ipv6hdr.withHopLimit v, data := [] }

/-- The world of a `ttl` match: a packet with TTL `v`, the rule `(mode, t)`, an
empty log. -/
def ttl_world (v mode t : Nat) : xt_world ipt_ttl_info :=
  { skb := sk_buff.withField v, info := { mode := mode, ttl := t }, klog := [] }

/-- The world of an `hl` match: a packet with hop limit `v`, the rule
`(mode, t)`, an empty log. -/
def hl_world (v mode t : Nat) : xt_world ip6t_hl_info :=
  { skb := sk_buff.withField v, info := { mode := mode, hop_limit := t }, klog := [] }

/-- The world of a checkentry call of the `HL` target with the configuration
`(mode, x)`. -/
def HL_world (mode x : Nat) : xt_world ip6t_HL_info :=
  { skb := sk_buff.withField 64, info := { mode := mode, hop_limit := x }, klog := [] }

/-- A second packet with TTL and hop limit `v` that differs from
`sk_buff.withField v` in every other field. -/
def sk_buff.other (v : Nat) : sk_buff :=
  { ip_hdr := { tos := 16, tot_len := 1500, id := 99, frag_off := 64, ttl := v, protocol := 17,
                check := 4660, saddr := 3232235777, daddr := 3232235778 },
    ipv6_hdr := { flow_lbl := 5, payload_len := 1200, nexthdr := 17, hop_limit := v,
                  saddr := 11, daddr := 12 },
    data := [222, 173, 190, 239] }

/-- The world `w` with the mode of its `ttl` rule replaced by `m`. -/
def ttl_with_mode (w : xt_world ipt_ttl_info) (m : Nat) : xt_world ipt_ttl_info :=
  { w with info := { w.info with mode := m } }

/-- The world `w` with the mode of its `hl` rule replaced by `m`. -/
def hl_with_mode (w : xt_world ip6t_hl_info) (m : Nat) : xt_world ip6t_hl_info :=
  { w with info := { w.info with mode := m } }

/-! ## Helper lemmas -/

theorem ttl_mt_fst_eq (c : ipt_ttl_h) (w : xt_world ipt_ttl_info)
    (h : w.info.mode = c.IPT_TTL_EQ) :
    (ttl_mt c w).1 = decide (w.skb.ip_hdr.ttl = w.info.ttl) := by
  simp [ttl_mt, h]

theorem ttl_mt_fst_ne (c : ipt_ttl_h) (w : xt_world ipt_ttl_info)
    (h0 : c.IPT_TTL_NE ≠ c.IPT_TTL_EQ) (h : w.info.mode = c.IPT_TTL_NE) :
    (ttl_mt c w).1 = decide (w.skb.ip_hdr.ttl ≠ w.info.ttl) := by
  simp [ttl_mt, h, h0]

theorem ttl_mt_fst_lt (c : ipt_ttl_h) (w : xt_world ipt_ttl_info)
    (h0 : c.IPT_TTL_LT ≠ c.IPT_TTL_EQ) (h1 : c.IPT_TTL_LT ≠ c.IPT_TTL_NE)
    (h : w.info.mode = c.IPT_TTL_LT) :
    (ttl_mt c w).1 = decide (w.skb.ip_hdr.ttl < w.info.ttl) := by
  simp [ttl_mt, h, h0, h1]

theorem ttl_mt_fst_gt (c : ipt_ttl_h) (w : xt_world ipt_ttl_info)
    (h0 : c.IPT_TTL_GT ≠ c.IPT_TTL_EQ) (h1 : c.IPT_TTL_GT ≠ c.IPT_TTL_NE)
    (h2 : c.IPT_TTL_GT ≠ c.IPT_TTL_LT) (h : w.info.mode = c.IPT_TTL_GT) :
    (ttl_mt c w).1 = decide (w.skb.ip_hdr.ttl > w.info.ttl) := by
  simp [ttl_mt, h, h0, h1, h2]

theorem hl_mt6_fst_eq (c : ip6t_hl_h) (w : xt_world ip6t_hl_info)
    (h : w.info.mode = c.IP6T_HL_EQ) :
    (hl_mt6 c w).1 = decide (w.skb.ipv6_hdr.hop_limit = w.info.hop_limit) := by
  simp [hl_mt6, h]

theorem hl_mt6_fst_ne (c : ip6t_hl_h) (w : xt_world ip6t_hl_info)
    (h0 : c.IP6T_HL_NE ≠ c.IP6T_HL_EQ) (h : w.info.mode = c.IP6T_HL_NE) :
    (hl_mt6 c w).1 = decide (w.skb.ipv6_hdr.hop_limit ≠ w.info.hop_limit) := by
  simp [hl_mt6, h, h0]

theorem hl_mt6_fst_lt (c : ip6t_hl_h) (w : xt_world ip6t_hl_info)
    (h0 : c.IP6T_HL_LT ≠ c.IP6T_HL_EQ) (h1 : c.IP6T_HL_LT ≠ c.IP6T_HL_NE)
    (h : w.info.mode = c.IP6T_HL_LT) :
    (hl_mt6 c w).1 = decide (w.skb.ipv6_hdr.hop_limit < w.info.hop_limit) := by
  simp [hl_mt6, h, h0, h1]

theorem hl_mt6_fst_gt (c : ip6t_hl_h) (w : xt_world ip6t_hl_info)
    (h0 : c.IP6T_HL_GT ≠ c.IP6T_HL_EQ) (h1 : c.IP6T_HL_GT ≠ c.IP6T_HL_NE)
    (h2 : c.IP6T_HL_GT ≠ c.IP6T_HL_LT) (h : w.info.mode = c.IP6T_HL_GT) :
    (hl_mt6 c w).1 = decide (w.skb.ipv6_hdr.hop_limit > w.info.hop_limit) := by
  simp [hl_mt6, h, h0, h1, h2]

theorem ttl_mt_unknown (c : ipt_ttl_h) (w : xt_world ipt_ttl_info)
    (h0 : w.info.mode ≠ c.IPT_TTL_EQ) (h1 : w.info.mode ≠ c.IPT_TTL_NE)
    (h2 : w.info.mode ≠ c.IPT_TTL_LT) (h3 : w.info.mode ≠ c.IPT_TTL_GT) :
    ttl_mt c w = (false, printk kern_level.KERN_WARNING
      ("ipt_ttl: unknown mode " ++ toString w.info.mode ++ "\n") w) := by
  simp [ttl_mt, h0, h1, h2, h3]

theorem hl_mt6_unknown (c : ip6t_hl_h) (w : xt_world ip6t_hl_info)
    (h0 : w.info.mode ≠ c.IP6T_HL_EQ) (h1 : w.info.mode ≠ c.IP6T_HL_NE)
    (h2 : w.info.mode ≠ c.IP6T_HL_LT) (h3 : w.info.mode ≠ c.IP6T_HL_GT) :
    hl_mt6 c w = (false, printk kern_level.KERN_WARNING
      ("ip6t_hl: unknown mode " ++ toString w.info.mode ++ "\n") w) := by
  simp [hl_mt6, h0, h1, h2, h3]

theorem ttl_mt_snd_known (c : ipt_ttl_h) (w : xt_world ipt_ttl_info)
    (h : w.info.mode = c.IPT_TTL_EQ ∨ w.info.mode = c.IPT_TTL_NE ∨
      w.info.mode = c.IPT_TTL_LT ∨ w.info.mode = c.IPT_TTL_GT) :
    (ttl_mt c w).2 = w := by
  unfold ttl_mt
  dsimp only
  split_ifs with h0 h1 h2 h3
  · rfl
  · rfl
  · rfl
  · rfl
  · rcases h with h | h | h | h
    · exact absurd h h0
    · exact absurd h h1
    · exact absurd h h2
    · exact absurd h h3

theorem hl_mt6_snd_known (c : ip6t_hl_h) (w : xt_world ip6t_hl_info)
    (h : w.info.mode = c.IP6T_HL_EQ ∨ w.info.mode = c.IP6T_HL_NE ∨
      w.info.mode = c.IP6T_HL_LT ∨ w.info.mode = c.IP6T_HL_GT) :
    (hl_mt6 c w).2 = w := by
  unfold hl_mt6
  dsimp only
  split_ifs with h0 h1 h2 h3
  · rfl
  · rfl
  · rfl
  · rfl
  · rcases h with h | h | h | h
    · exact absurd h h0
    · exact absurd h h1
    · exact absurd h h2
    · exact absurd h h3

/-! ## C1, C2: the verdict of the matchers in the four known modes -/

/-- C1: for every packet TTL `v` and threshold `t` (any natural numbers, hence
all of 0..255), `ttl_mt` returns true iff `v = t` in mode EQ, iff `v ≠ t` in
mode NE, iff `v < t` in mode LT, iff `v > t` in mode GT. -/
theorem ttl_mt_verdict (c : ipt_ttl_h) (hc : c.distinct) (w : xt_world ipt_ttl_info) :
    (w.info.mode = c.IPT_TTL_EQ →
      ((ttl_mt c w).1 = true ↔ w.skb.ip_hdr.ttl = w.info.ttl)) ∧
    (w.info.mode = c.IPT_TTL_NE →
      ((ttl_mt c w).1 = true ↔ w.skb.ip_hdr.ttl ≠ w.info.ttl)) ∧
    (w.info.mode = c.IPT_TTL_LT →
      ((ttl_mt c w).1 = true ↔ w.skb.ip_hdr.ttl < w.info.ttl)) ∧
    (w.info.mode = c.IPT_TTL_GT →
      ((ttl_mt c w).1 = true ↔ w.skb.ip_hdr.ttl > w.info.ttl)) := by
  obtain ⟨h01, h02, h03, h12, h13, h23⟩ := hc
  refine ⟨fun h => ?_, fun h => ?_, fun h => ?_, fun h => ?_⟩
  · rw [ttl_mt_fst_eq c w h]; simp
  · rw [ttl_mt_fst_ne c w (Ne.symm h01) h]; simp
  · rw [ttl_mt_fst_lt c w (Ne.symm h02) (Ne.symm h12) h]; simp
  · rw [ttl_mt_fst_gt c w (Ne.symm h03) (Ne.symm h13) (Ne.symm h23) h]; simp

/-- Witness of C1 at the scenario of the specification: TTL 64, mode LT,
threshold 50 does not match. -/
theorem ttl_mt_verdict_witness :
    ipt_ttl_h.std.distinct ∧ (ttl_world 64 2 50).info.mode = ipt_ttl_h.std.IPT_TTL_LT ∧
    ((ttl_mt ipt_ttl_h.std (ttl_world 64 2 50)).1 = true ↔ 64 < 50) ∧
    (ttl_mt ipt_ttl_h.std (ttl_world 64 2 50)).1 = false :=
  ⟨by decide, rfl,
   (ttl_mt_verdict ipt_ttl_h.std (by decide) (ttl_world 64 2 50)).2.2.1 rfl, by decide⟩

/-- C2: for every packet hop limit `v` and threshold `t` (any natural numbers,
hence all of 0..255), `hl_mt6` returns true iff `v = t` in mode EQ, iff `v ≠ t`
in mode NE, iff `v < t` in mode LT, iff `v > t` in mode GT. -/
theorem hl_mt6_verdict (c : ip6t_hl_h) (hc : c.distinct) (w : xt_world ip6t_hl_info) :
    (w.info.mode = c.IP6T_HL_EQ →
      ((hl_mt6 c w).1 = true ↔ w.skb.ipv6_hdr.hop_limit = w.info.hop_limit)) ∧
    (w.info.mode = c.IP6T_HL_NE →
      ((hl_mt6 c w).1 = true ↔ w.skb.ipv6_hdr.hop_limit ≠ w.info.hop_limit)) ∧
    (w.info.mode = c.IP6T_HL_LT →
      ((hl_mt6 c w).1 = true ↔ w.skb.ipv6_hdr.hop_limit < w.info.hop_limit)) ∧
    (w.info.mode = c.IP6T_HL_GT →
      ((hl_mt6 c w).1 = true ↔ w.skb.ipv6_hdr.hop_limit > w.info.hop_limit)) := by
  obtain ⟨h01, h02, h03, h12, h13, h23⟩ := hc
  refine ⟨fun h => ?_, fun h => ?_, fun h => ?_, fun h => ?_⟩
  · rw [hl_mt6_fst_eq c w h]; simp
  · rw [hl_mt6_fst_ne c w (Ne.symm h01) h]; simp
  · rw [hl_mt6_fst_lt c w (Ne.symm h02) (Ne.symm h12) h]; simp
  · rw [hl_mt6_fst_gt c w (Ne.symm h03) (Ne.symm h13) (Ne.symm h23) h]; simp

/-- Witness of C2: hop limit 7 against threshold 3 in mode GT matches. -/
theorem hl_mt6_verdict_witness :
    ip6t_hl_h.std.distinct ∧ (hl_world 7 3 3).info.mode = ip6t_hl_h.std.IP6T_HL_GT ∧
    ((hl_mt6 ip6t_hl_h.std (hl_world 7 3 3)).1 = true ↔ 7 > 3) ∧
    (hl_mt6 ip6t_hl_h.std (hl_world 7 3 3)).1 = true :=
  ⟨by decide, rfl,
   (hl_mt6_verdict ip6t_hl_h.std (by decide) (hl_world 7 3 3)).2.2.2 rfl, by decide⟩

/-! ## C3, C4: validation of the target configuration -/

theorem hl_tg6_check_fst (c : ip6t_HL_h) (w : xt_world ip6t_HL_info) :
    (hl_tg6_check c w).1 =
      decide (¬ (w.info.mode > c.IP6T_HL_MAXMODE ∨
        (w.info.mode ≠ c.IP6T_HL_SET ∧ w.info.hop_limit = 0))) := by
  unfold hl_tg6_check
  by_cases h1 : w.info.mode > c.IP6T_HL_MAXMODE
  · simp [h1]
  · by_cases h2 : w.info.mode ≠ c.IP6T_HL_SET ∧ w.info.hop_limit = 0
    · simp [h1, h2]
    · simp only [h1, h2, if_false]
      simp

theorem ip6t_HL_h.std_wellFormed : ip6t_HL_h.std.wellFormed := by
  refine ⟨by decide, by decide, by decide, by decide, by decide, by decide, ?_⟩
  intro m _
  simp only [ip6t_HL_h.std]
  omega

/-- C3: for every target configuration with a `u8` mode `m` and operand `x`,
`hl_tg6_check` returns false iff `m` exceeds `IP6T_HL_MAXMODE` or `m` is INC or
DEC and `x = 0`; exceeding `IP6T_HL_MAXMODE` is the same as being none of SET,
INC, DEC; an out-of-range mode is rejected whatever the operand; in every other
case the function returns true. -/
theorem hl_tg6_check_rejects_iff (c : ip6t_HL_h) (hc : c.wellFormed)
    (w : xt_world ip6t_HL_info) (hm : w.info.mode < 256) :
    ((hl_tg6_check c w).1 = false ↔
      (w.info.mode > c.IP6T_HL_MAXMODE ∨
        ((w.info.mode = c.IP6T_HL_INC ∨ w.info.mode = c.IP6T_HL_DEC) ∧
          w.info.hop_limit = 0))) ∧
    (w.info.mode > c.IP6T_HL_MAXMODE ↔
      ¬ (w.info.mode = c.IP6T_HL_SET ∨ w.info.mode = c.IP6T_HL_INC ∨
          w.info.mode = c.IP6T_HL_DEC)) ∧
    (w.info.mode > c.IP6T_HL_MAXMODE → (hl_tg6_check c w).1 = false) ∧
    ((hl_tg6_check c w).1 = true ↔
      ¬ (w.info.mode > c.IP6T_HL_MAXMODE ∨
        ((w.info.mode = c.IP6T_HL_INC ∨ w.info.mode = c.IP6T_HL_DEC) ∧
          w.info.hop_limit = 0))) := by
  obtain ⟨hsi, hsd, _, _, _, _, hrange⟩ := hc
  have hr := hrange w.info.mode hm
  have key : (w.info.mode > c.IP6T_HL_MAXMODE ∨
        (w.info.mode ≠ c.IP6T_HL_SET ∧ w.info.hop_limit = 0)) ↔
      (w.info.mode > c.IP6T_HL_MAXMODE ∨
        ((w.info.mode = c.IP6T_HL_INC ∨ w.info.mode = c.IP6T_HL_DEC) ∧
          w.info.hop_limit = 0)) := by
    constructor
    · rintro (h | ⟨h1, h2⟩)
      · exact Or.inl h
      · by_cases hle : w.info.mode ≤ c.IP6T_HL_MAXMODE
        · rcases hr.mp hle with h | h | h
          · exact absurd h h1
          · exact Or.inr ⟨Or.inl h, h2⟩
          · exact Or.inr ⟨Or.inr h, h2⟩
        · exact Or.inl (Nat.lt_of_not_le hle)
    · rintro (h | ⟨h1 | h1, h2⟩)
      · exact Or.inl h
      · exact Or.inr ⟨by rw [h1]; exact Ne.symm hsi, h2⟩
      · exact Or.inr ⟨by rw [h1]; exact Ne.symm hsd, h2⟩
  have hgt : w.info.mode > c.IP6T_HL_MAXMODE ↔
      ¬ (w.info.mode = c.IP6T_HL_SET ∨ w.info.mode = c.IP6T_HL_INC ∨
          w.info.mode = c.IP6T_HL_DEC) := by
    rw [← hr]; exact Nat.not_le.symm
  rw [hl_tg6_check_fst]
  refine ⟨?_, hgt, ?_, ?_⟩
  · rw [decide_eq_false_iff_not, not_not]; exact key
  · intro h; rw [decide_eq_false_iff_not, not_not]; exact Or.inl h
  · rw [decide_eq_true_iff]; exact not_congr key

/-- Witness of C3: mode 200 with operand 9 is rejected. -/
theorem hl_tg6_check_rejects_iff_witness :
    ip6t_HL_h.std.wellFormed ∧ (HL_world 200 9).info.mode < 256 ∧
    (hl_tg6_check ip6t_HL_h.std (HL_world 200 9)).1 = false :=
  ⟨ip6t_HL_h.std_wellFormed, by decide,
   (hl_tg6_check_rejects_iff ip6t_HL_h.std ip6t_HL_h.std_wellFormed (HL_world 200 9)
      (by decide)).2.2.1 (by decide)⟩

/-- C4: `hl_tg6_check` fails for mode INC with operand 0 and for mode DEC with
operand 0, succeeds for mode SET with every operand (0 included), and succeeds
for modes INC and DEC with every operand that is not 0. -/
theorem hl_tg6_check_operand (c : ip6t_HL_h) (hc : c.wellFormed)
    (w : xt_world ip6t_HL_info) :
    (w.info.mode = c.IP6T_HL_INC → w.info.hop_limit = 0 → (hl_tg6_check c w).1 = false) ∧
    (w.info.mode = c.IP6T_HL_DEC → w.info.hop_limit = 0 → (hl_tg6_check c w).1 = false) ∧
    (w.info.mode = c.IP6T_HL_SET → (hl_tg6_check c w).1 = true) ∧
    (w.info.mode = c.IP6T_HL_INC → 1 ≤ w.info.hop_limit → (hl_tg6_check c w).1 = true) ∧
    (w.info.mode = c.IP6T_HL_DEC → 1 ≤ w.info.hop_limit → (hl_tg6_check c w).1 = true) := by
  obtain ⟨hsi, hsd, _, hs, hi, hd, hrange⟩ := hc
  have hsle : c.IP6T_HL_SET ≤ c.IP6T_HL_MAXMODE := (hrange _ hs).mpr (Or.inl rfl)
  have hile : c.IP6T_HL_INC ≤ c.IP6T_HL_MAXMODE := (hrange _ hi).mpr (Or.inr (Or.inl rfl))
  have hdle : c.IP6T_HL_DEC ≤ c.IP6T_HL_MAXMODE := (hrange _ hd).mpr (Or.inr (Or.inr rfl))
  rw [hl_tg6_check_fst]
  refine ⟨fun h h0 => ?_, fun h h0 => ?_, fun h => ?_, fun h h1 => ?_, fun h h1 => ?_⟩
  · rw [decide_eq_false_iff_not, not_not]
    exact Or.inr ⟨by rw [h]; exact Ne.symm hsi, h0⟩
  · rw [decide_eq_false_iff_not, not_not]
    exact Or.inr ⟨by rw [h]; exact Ne.symm hsd, h0⟩
  · rw [decide_eq_true_iff]
    rintro (h' | ⟨h', _⟩)
    · rw [h] at h'; exact absurd hsle (Nat.not_le.mpr h')
    · exact h' h
  · rw [decide_eq_true_iff]
    rintro (h' | ⟨_, h'⟩)
    · rw [h] at h'; exact absurd hile (Nat.not_le.mpr h')
    · omega
  · rw [decide_eq_true_iff]
    rintro (h' | ⟨_, h'⟩)
    · rw [h] at h'; exact absurd hdle (Nat.not_le.mpr h')
    · omega

/-- Witness of C4 at the scenarios of the specification: INC with operand 0
fails, SET with operand 0 succeeds. -/
theorem hl_tg6_check_operand_witness :
    ip6t_HL_h.std.wellFormed ∧
    (hl_tg6_check ip6t_HL_h.std (HL_world 1 0)).1 = false ∧
    (hl_tg6_check ip6t_HL_h.std (HL_world 0 0)).1 = true :=
  ⟨ip6t_HL_h.std_wellFormed,
   (hl_tg6_check_operand ip6t_HL_h.std ip6t_HL_h.std_wellFormed (HL_world 1 0)).1 rfl rfl,
   (hl_tg6_check_operand ip6t_HL_h.std ip6t_HL_h.std_wellFormed (HL_world 0 0)).2.2.1 rfl⟩

/-! ## C5: unknown match modes -/

/-- C5: for every mode outside EQ, NE, LT, GT, every field value and every
threshold, `ttl_mt` and `hl_mt6` return (they are total functions), the verdict
is false, and the kernel log grows by exactly one warning, whose text is the
protocol name followed by `: unknown mode ` and the mode in decimal. -/
theorem mt_unknown_mode (c4 : ipt_ttl_h) (c6 : ip6t_hl_h)
    (w4 : xt_world ipt_ttl_info) (w6 : xt_world ip6t_hl_info)
    (h4 : w4.info.mode ≠ c4.IPT_TTL_EQ ∧ w4.info.mode ≠ c4.IPT_TTL_NE ∧
      w4.info.mode ≠ c4.IPT_TTL_LT ∧ w4.info.mode ≠ c4.IPT_TTL_GT)
    (h6 : w6.info.mode ≠ c6.IP6T_HL_EQ ∧ w6.info.mode ≠ c6.IP6T_HL_NE ∧
      w6.info.mode ≠ c6.IP6T_HL_LT ∧ w6.info.mode ≠ c6.IP6T_HL_GT) :
    ((ttl_mt c4 w4).1 = false ∧
      (ttl_mt c4 w4).2.klog = w4.klog ++
        [{ level := kern_level.KERN_WARNING,
           text := "ipt_ttl: unknown mode " ++ toString w4.info.mode ++ "\n" }] ∧
      (ttl_mt c4 w4).2.klog.length = w4.klog.length + 1) ∧
    ((hl_mt6 c6 w6).1 = false ∧
      (hl_mt6 c6 w6).2.klog = w6.klog ++
        [{ level := kern_level.KERN_WARNING,
           text := "ip6t_hl: unknown mode " ++ toString w6.info.mode ++ "\n" }] ∧
      (hl_mt6 c6 w6).2.klog.length = w6.klog.length + 1) := by
  rw [ttl_mt_unknown c4 w4 h4.1 h4.2.1 h4.2.2.1 h4.2.2.2,
    hl_mt6_unknown c6 w6 h6.1 h6.2.1 h6.2.2.1 h6.2.2.2]
  simp [printk]

/-- Witness of C5 at mode 99: both matchers return false and log one line. -/
theorem mt_unknown_mode_witness :
    ((ttl_mt ipt_ttl_h.std (ttl_world 64 99 50)).1 = false ∧
      (ttl_mt ipt_ttl_h.std (ttl_world 64 99 50)).2.klog = [] ++
        [{ level := kern_level.KERN_WARNING,
           text := "ipt_ttl: unknown mode 99\n" }] ∧
      (ttl_mt ipt_ttl_h.std (ttl_world 64 99 50)).2.klog.length = 0 + 1) ∧
    ((hl_mt6 ip6t_hl_h.std (hl_world 64 99 50)).1 = false ∧
      (hl_mt6 ip6t_hl_h.std (hl_world 64 99 50)).2.klog = [] ++
        [{ level := kern_level.KERN_WARNING,
           text := "ip6t_hl: unknown mode 99\n" }] ∧
      (hl_mt6 ip6t_hl_h.std (hl_world 64 99 50)).2.klog.length = 0 + 1) :=
  mt_unknown_mode ipt_ttl_h.std ip6t_hl_h.std (ttl_world 64 99 50) (hl_world 64 99 50)
    (by decide) (by decide)

/-! ## C6: what an invocation of a matcher leaves behind -/

/-- C6, counterexample: with mode 99 the matchers append a warning to the kernel
log, so the world after the call differs from the world before it. -/
theorem mt_pure_counterexample :
    (ttl_mt ipt_ttl_h.std (ttl_world 64 99 50)).2.klog =
      [{ level := kern_level.KERN_WARNING, text := "ipt_ttl: unknown mode 99\n" }] ∧
    (ttl_mt ipt_ttl_h.std (ttl_world 64 99 50)).2 ≠ ttl_world 64 99 50 ∧
    (hl_mt6 ip6t_hl_h.std (hl_world 64 99 50)).2.klog =
      [{ level := kern_level.KERN_WARNING, text := "ip6t_hl: unknown mode 99\n" }] ∧
    (hl_mt6 ip6t_hl_h.std (hl_world 64 99 50)).2 ≠ hl_world 64 99 50 := by
  refine ⟨by decide, by decide, by decide, by decide⟩

/-- C6, amended: for every packet and every match configuration `ttl_mt` and
`hl_mt6` leave the packet and the configuration unchanged; when the mode is one
of EQ, NE, LT, GT the world is left exactly as it was (no effect besides the
verdict); for any other mode the only effect besides the verdict is one warning
appended to the kernel log. -/
theorem mt_frame (c4 : ipt_ttl_h) (c6 : ip6t_hl_h)
    (w4 : xt_world ipt_ttl_info) (w6 : xt_world ip6t_hl_info) :
    ((ttl_mt c4 w4).2.skb = w4.skb ∧ (ttl_mt c4 w4).2.info = w4.info ∧
      ((w4.info.mode = c4.IPT_TTL_EQ ∨ w4.info.mode = c4.IPT_TTL_NE ∨
          w4.info.mode = c4.IPT_TTL_LT ∨ w4.info.mode = c4.IPT_TTL_GT) →
        (ttl_mt c4 w4).2 = w4) ∧
      (¬ (w4.info.mode = c4.IPT_TTL_EQ ∨ w4.info.mode = c4.IPT_TTL_NE ∨
          w4.info.mode = c4.IPT_TTL_LT ∨ w4.info.mode = c4.IPT_TTL_GT) →
        (ttl_mt c4 w4).2.klog = w4.klog ++
          [{ level := kern_level.KERN_WARNING,
             text := "ipt_ttl: unknown mode " ++ toString w4.info.mode ++ "\n" }])) ∧
    ((hl_mt6 c6 w6).2.skb = w6.skb ∧ (hl_mt6 c6 w6).2.info = w6.info ∧
      ((w6.info.mode = c6.IP6T_HL_EQ ∨ w6.info.mode = c6.IP6T_HL_NE ∨
          w6.info.mode = c6.IP6T_HL_LT ∨ w6.info.mode = c6.IP6T_HL_GT) →
        (hl_mt6 c6 w6).2 = w6) ∧
      (¬ (w6.info.mode = c6.IP6T_HL_EQ ∨ w6.info.mode = c6.IP6T_HL_NE ∨
          w6.info.mode = c6.IP6T_HL_LT ∨ w6.info.mode = c6.IP6T_HL_GT) →
        (hl_mt6 c6 w6).2.klog = w6.klog ++
          [{ level := kern_level.KERN_WARNING,
             text := "ip6t_hl: unknown mode " ++ toString w6.info.mode ++ "\n" }])) := by
  constructor
  · by_cases hk : w4.info.mode = c4.IPT_TTL_EQ ∨ w4.info.mode = c4.IPT_TTL_NE ∨
        w4.info.mode = c4.IPT_TTL_LT ∨ w4.info.mode = c4.IPT_TTL_GT
    · rw [ttl_mt_snd_known c4 w4 hk]
      exact ⟨rfl, rfl, fun _ => rfl, fun hn => absurd hk hn⟩
    · have hk' := hk
      simp only [not_or] at hk'
      rw [ttl_mt_unknown c4 w4 hk'.1 hk'.2.1 hk'.2.2.1 hk'.2.2.2]
      exact ⟨rfl, rfl, fun h => absurd h hk, fun _ => rfl⟩
  · by_cases hk : w6.info.mode = c6.IP6T_HL_EQ ∨ w6.info.mode = c6.IP6T_HL_NE ∨
        w6.info.mode = c6.IP6T_HL_LT ∨ w6.info.mode = c6.IP6T_HL_GT
    · rw [hl_mt6_snd_known c6 w6 hk]
      exact ⟨rfl, rfl, fun _ => rfl, fun hn => absurd hk hn⟩
    · have hk' := hk
      simp only [not_or] at hk'
      rw [hl_mt6_unknown c6 w6 hk'.1 hk'.2.1 hk'.2.2.1 hk'.2.2.2]
      exact ⟨rfl, rfl, fun h => absurd h hk, fun _ => rfl⟩

/-- Witness of the amended C6: in mode LT the world stays as it was. -/
theorem mt_frame_witness :
    (ttl_mt ipt_ttl_h.std (ttl_world 64 2 50)).2 = ttl_world 64 2 50 ∧
    (hl_mt6 ip6t_hl_h.std (hl_world 64 2 50)).2 = hl_world 64 2 50 :=
  ⟨(mt_frame ipt_ttl_h.std ip6t_hl_h.std (ttl_world 64 2 50) (hl_world 64 2 50)).1.2.2.1
      (Or.inr (Or.inr (Or.inl rfl))),
   (mt_frame ipt_ttl_h.std ip6t_hl_h.std (ttl_world 64 2 50) (hl_world 64 2 50)).2.2.2.1
      (Or.inr (Or.inr (Or.inl rfl)))⟩

/-! ## C7: the field written by the targets -/

/-- C7: for every current field value `v` and operand `x` in 0..255, the targets
`ttl_tg` and `hl_tg6` leave the field equal to `x` in mode SET, to
`min (v + x) 255` in mode INC and to `max (v - x) 0` (difference of integers) in
mode DEC; the new value is again in 0..255. -/
theorem tg_field_saturates (fixup : iphdr → Nat → Nat) (skb : sk_buff) (x : Nat)
    (hx : x < 256) (hv4 : skb.ip_hdr.ttl < 256) (hv6 : skb.ipv6_hdr.hop_limit < 256) :
    ((ttl_tg fixup { mode := tg_mode.SET, operand := x } skb).ip_hdr.ttl = x ∧
      (ttl_tg fixup { mode := tg_mode.INC, operand := x } skb).ip_hdr.ttl =
        min (skb.ip_hdr.ttl + x) 255 ∧
      (((ttl_tg fixup { mode := tg_mode.DEC, operand := x } skb).ip_hdr.ttl : Nat) : Int) =
        max ((skb.ip_hdr.ttl : Int) - (x : Int)) 0 ∧
      (∀ m, (ttl_tg fixup { mode := m, operand := x } skb).ip_hdr.ttl ≤ 255)) ∧
    ((hl_tg6 { mode := tg_mode.SET, operand := x } skb).ipv6_hdr.hop_limit = x ∧
      (hl_tg6 { mode := tg_mode.INC, operand := x } skb).ipv6_hdr.hop_limit =
        min (skb.ipv6_hdr.hop_limit + x) 255 ∧
      (((hl_tg6 { mode := tg_mode.DEC, operand := x } skb).ipv6_hdr.hop_limit : Nat) : Int) =
        max ((skb.ipv6_hdr.hop_limit : Int) - (x : Int)) 0 ∧
      (∀ m, (hl_tg6 { mode := m, operand := x } skb).ipv6_hdr.hop_limit ≤ 255)) := by
  refine ⟨⟨rfl, rfl, ?_, ?_⟩, ⟨rfl, rfl, ?_, ?_⟩⟩
  · simp only [ttl_tg, tg_new_field]; omega
  · intro m
    cases m <;> simp only [ttl_tg, tg_new_field] <;> omega
  · simp only [hl_tg6, tg_new_field]; omega
  · intro m
    cases m <;> simp only [hl_tg6, tg_new_field] <;> omega

/-- Witness of C7 at the scenarios of the specification: 250 INC 10 gives 255,
5 DEC 10 gives 0, hop limit 1 DEC 5 gives 0. -/
theorem tg_field_saturates_witness :
    (ttl_tg (fun h _ => h.check) { mode := tg_mode.INC, operand := 10 }
        (sk_buff.withField 250)).ip_hdr.ttl = min (250 + 10) 255 ∧
    (ttl_tg (fun h _ => h.check) { mode := tg_mode.INC, operand := 10 }
        (sk_buff.withField 250)).ip_hdr.ttl = 255 ∧
    (ttl_tg (fun h _ => h.check) { mode := tg_mode.DEC, operand := 10 }
        (sk_buff.withField 5)).ip_hdr.ttl = 0 ∧
    (hl_tg6 { mode := tg_mode.DEC, operand := 5 } (sk_buff.withField 1)).ipv6_hdr.hop_limit = 0 :=
  ⟨(tg_field_saturates (fun h _ => h.check) (sk_buff.withField 250) 10
      (by decide) (by decide) (by decide)).1.2.1,
   by decide, by decide, by decide⟩

/-! ## C8: the verdict depends on the field and the configuration only -/

theorem ttl_mt_fst_congr (c : ipt_ttl_h) (a b : xt_world ipt_ttl_info)
    (hinfo : a.info = b.info) (hfield : a.skb.ip_hdr.ttl = b.skb.ip_hdr.ttl) :
    (ttl_mt c a).1 = (ttl_mt c b).1 := by
  unfold ttl_mt
  dsimp only
  rw [hinfo, hfield]
  split_ifs <;> rfl

theorem hl_mt6_fst_congr (c : ip6t_hl_h) (a b : xt_world ip6t_hl_info)
    (hinfo : a.info = b.info)
    (hfield : a.skb.ipv6_hdr.hop_limit = b.skb.ipv6_hdr.hop_limit) :
    (hl_mt6 c a).1 = (hl_mt6 c b).1 := by
  unfold hl_mt6
  dsimp only
  rw [hinfo, hfield]
  split_ifs <;> rfl

theorem ttl_mt_snd_skb_info (c : ipt_ttl_h) (w : xt_world ipt_ttl_info) :
    (ttl_mt c w).2.skb = w.skb ∧ (ttl_mt c w).2.info = w.info := by
  unfold ttl_mt
  dsimp only
  split_ifs <;> exact ⟨rfl, rfl⟩

theorem hl_mt6_snd_skb_info (c : ip6t_hl_h) (w : xt_world ip6t_hl_info) :
    (hl_mt6 c w).2.skb = w.skb ∧ (hl_mt6 c w).2.info = w.info := by
  unfold hl_mt6
  dsimp only
  split_ifs <;> exact ⟨rfl, rfl⟩

/-- C8: two invocations of `ttl_mt` (resp. `hl_mt6`) under the same match
configuration on packets with the same TTL (resp. hop limit) return the same
verdict, whatever else differs between the two packets and the two kernel logs;
and invoking the matcher again on the world the first invocation left behind
returns the same verdict. -/
theorem mt_verdict_of_field_and_info (c4 : ipt_ttl_h) (c6 : ip6t_hl_h)
    (a4 b4 : xt_world ipt_ttl_info) (a6 b6 : xt_world ip6t_hl_info)
    (hinfo4 : a4.info = b4.info) (hfield4 : a4.skb.ip_hdr.ttl = b4.skb.ip_hdr.ttl)
    (hinfo6 : a6.info = b6.info)
    (hfield6 : a6.skb.ipv6_hdr.hop_limit = b6.skb.ipv6_hdr.hop_limit) :
    (ttl_mt c4 a4).1 = (ttl_mt c4 b4).1 ∧
    (hl_mt6 c6 a6).1 = (hl_mt6 c6 b6).1 ∧
    (ttl_mt c4 (ttl_mt c4 a4).2).1 = (ttl_mt c4 a4).1 ∧
    (hl_mt6 c6 (hl_mt6 c6 a6).2).1 = (hl_mt6 c6 a6).1 := by
  refine ⟨ttl_mt_fst_congr c4 a4 b4 hinfo4 hfield4, hl_mt6_fst_congr c6 a6 b6 hinfo6 hfield6,
    ?_, ?_⟩
  · have h := ttl_mt_snd_skb_info c4 a4
    exact ttl_mt_fst_congr c4 _ a4 h.2 (by rw [h.1])
  · have h := hl_mt6_snd_skb_info c6 a6
    exact hl_mt6_fst_congr c6 _ a6 h.2 (by rw [h.1])

/-- Witness of C8: two packets with TTL / hop limit 64 that differ everywhere
else, with different kernel logs, under the rule (LT, 50). -/
theorem mt_verdict_of_field_and_info_witness :
    sk_buff.withField 64 ≠ sk_buff.other 64 ∧
    (ttl_mt ipt_ttl_h.std (ttl_world 64 2 50)).1 =
      (ttl_mt ipt_ttl_h.std
        { skb := sk_buff.other 64, info := { mode := 2, ttl := 50 },
          klog := [{ level := kern_level.KERN_WARNING, text := "earlier line\n" }] }).1 ∧
    (hl_mt6 ip6t_hl_h.std (hl_world 64 2 50)).1 =
      (hl_mt6 ip6t_hl_h.std
        { skb := sk_buff.other 64, info := { mode := 2, hop_limit := 50 },
          klog := [{ level := kern_level.KERN_WARNING, text := "earlier line\n" }] }).1 :=
  ⟨by decide,
   (mt_verdict_of_field_and_info ipt_ttl_h.std ip6t_hl_h.std (ttl_world 64 2 50)
      { skb := sk_buff.other 64, info := { mode := 2, ttl := 50 },
        klog := [{ level := kern_level.KERN_WARNING, text := "earlier line\n" }] }
      (hl_world 64 2 50)
      { skb := sk_buff.other 64, info := { mode := 2, hop_limit := 50 },
        klog := [{ level := kern_level.KERN_WARNING, text := "earlier line\n" }] }
      rfl rfl rfl rfl).1,
   (mt_verdict_of_field_and_info ipt_ttl_h.std ip6t_hl_h.std (ttl_world 64 2 50)
      { skb := sk_buff.other 64, info := { mode := 2, ttl := 50 },
        klog := [{ level := kern_level.KERN_WARNING, text := "earlier line\n" }] }
      (hl_world 64 2 50)
      { skb := sk_buff.other 64, info := { mode := 2, hop_limit := 50 },
        klog := [{ level := kern_level.KERN_WARNING, text := "earlier line\n" }] }
      rfl rfl rfl rfl).2.1⟩

/-! ## C9: the two matchers are one comparator -/

/-- C9: when the two headers give the four modes the same numbers, `ttl_mt` on a
packet with TTL `v` under the configuration `(m, t)` and `hl_mt6` on a packet
with hop limit `v` under the configuration `(m, t)` return the same verdict, for
every `v`, every `t` and every mode value `m`, unknown modes included. -/
theorem ttl_mt_eq_hl_mt6 (c4 : ipt_ttl_h) (c6 : ip6t_hl_h)
    (hEQ : c4.IPT_TTL_EQ = c6.IP6T_HL_EQ) (hNE : c4.IPT_TTL_NE = c6.IP6T_HL_NE)
    (hLT : c4.IPT_TTL_LT = c6.IP6T_HL_LT) (hGT : c4.IPT_TTL_GT = c6.IP6T_HL_GT)
    (w4 : xt_world ipt_ttl_info) (w6 : xt_world ip6t_hl_info)
    (hv : w4.skb.ip_hdr.ttl = w6.skb.ipv6_hdr.hop_limit)
    (hm : w4.info.mode = w6.info.mode) (ht : w4.info.ttl = w6.info.hop_limit) :
    (ttl_mt c4 w4).1 = (hl_mt6 c6 w6).1 := by
  unfold ttl_mt hl_mt6
  dsimp only
  rw [hEQ, hNE, hLT, hGT, hv, hm, ht]
  split_ifs <;> rfl

/-- Witness of C9: one known mode (GT) and one unknown mode (99). -/
theorem ttl_mt_eq_hl_mt6_witness :
    (ttl_mt ipt_ttl_h.std (ttl_world 64 3 50)).1 =
      (hl_mt6 ip6t_hl_h.std (hl_world 64 3 50)).1 ∧
    (ttl_mt ipt_ttl_h.std (ttl_world 64 99 50)).1 =
      (hl_mt6 ip6t_hl_h.std (hl_world 64 99 50)).1 :=
  ⟨ttl_mt_eq_hl_mt6 ipt_ttl_h.std ip6t_hl_h.std rfl rfl rfl rfl
      (ttl_world 64 3 50) (hl_world 64 3 50) rfl rfl rfl,
   ttl_mt_eq_hl_mt6 ipt_ttl_h.std ip6t_hl_h.std rfl rfl rfl rfl
      (ttl_world 64 99 50) (hl_world 64 99 50) rfl rfl rfl⟩

/-! ## C10: EQ, LT, GT partition; NE is the negation of EQ -/

/-- C10: for every field value and threshold exactly one of the modes EQ, LT, GT
makes `ttl_mt` (and likewise `hl_mt6`) return true; the verdict in mode NE is
the negation of the verdict in mode EQ, and equals the disjunction of the
verdicts in modes LT and GT. -/
theorem mt_modes_partition (c4 : ipt_ttl_h) (c6 : ip6t_hl_h)
    (h4 : c4.distinct) (h6 : c6.distinct)
    (w4 : xt_world ipt_ttl_info) (w6 : xt_world ip6t_hl_info) :
    ((((ttl_mt c4 (ttl_with_mode w4 c4.IPT_TTL_EQ)).1 = true ∧
          (ttl_mt c4 (ttl_with_mode w4 c4.IPT_TTL_LT)).1 = false ∧
          (ttl_mt c4 (ttl_with_mode w4 c4.IPT_TTL_GT)).1 = false) ∨
        ((ttl_mt c4 (ttl_with_mode w4 c4.IPT_TTL_EQ)).1 = false ∧
          (ttl_mt c4 (ttl_with_mode w4 c4.IPT_TTL_LT)).1 = true ∧
          (ttl_mt c4 (ttl_with_mode w4 c4.IPT_TTL_GT)).1 = false) ∨
        ((ttl_mt c4 (ttl_with_mode w4 c4.IPT_TTL_EQ)).1 = false ∧
          (ttl_mt c4 (ttl_with_mode w4 c4.IPT_TTL_LT)).1 = false ∧
          (ttl_mt c4 (ttl_with_mode w4 c4.IPT_TTL_GT)).1 = true)) ∧
      (ttl_mt c4 (ttl_with_mode w4 c4.IPT_TTL_NE)).1 =
        !(ttl_mt c4 (ttl_with_mode w4 c4.IPT_TTL_EQ)).1 ∧
      (ttl_mt c4 (ttl_with_mode w4 c4.IPT_TTL_NE)).1 =
        ((ttl_mt c4 (ttl_with_mode w4 c4.IPT_TTL_LT)).1 ||
          (ttl_mt c4 (ttl_with_mode w4 c4.IPT_TTL_GT)).1)) ∧
    ((((hl_mt6 c6 (hl_with_mode w6 c6.IP6T_HL_EQ)).1 = true ∧
          (hl_mt6 c6 (hl_with_mode w6 c6.IP6T_HL_LT)).1 = false ∧
          (hl_mt6 c6 (hl_with_mode w6 c6.IP6T_HL_GT)).1 = false) ∨
        ((hl_mt6 c6 (hl_with_mode w6 c6.IP6T_HL_EQ)).1 = false ∧
          (hl_mt6 c6 (hl_with_mode w6 c6.IP6T_HL_LT)).1 = true ∧
          (hl_mt6 c6 (hl_with_mode w6 c6.IP6T_HL_GT)).1 = false) ∨
        ((hl_mt6 c6 (hl_with_mode w6 c6.IP6T_HL_EQ)).1 = false ∧
          (hl_mt6 c6 (hl_with_mode w6 c6.IP6T_HL_LT)).1 = false ∧
          (hl_mt6 c6 (hl_with_mode w6 c6.IP6T_HL_GT)).1 = true)) ∧
      (hl_mt6 c6 (hl_with_mode w6 c6.IP6T_HL_NE)).1 =
        !(hl_mt6 c6 (hl_with_mode w6 c6.IP6T_HL_EQ)).1 ∧
      (hl_mt6 c6 (hl_with_mode w6 c6.IP6T_HL_NE)).1 =
        ((hl_mt6 c6 (hl_with_mode w6 c6.IP6T_HL_LT)).1 ||
          (hl_mt6 c6 (hl_with_mode w6 c6.IP6T_HL_GT)).1)) := by
  obtain ⟨a01, a02, a03, a12, a13, a23⟩ := h4
  obtain ⟨b01, b02, b03, b12, b13, b23⟩ := h6
  rw [ttl_mt_fst_eq c4 (ttl_with_mode w4 c4.IPT_TTL_EQ) rfl,
    ttl_mt_fst_ne c4 (ttl_with_mode w4 c4.IPT_TTL_NE) (Ne.symm a01) rfl,
    ttl_mt_fst_lt c4 (ttl_with_mode w4 c4.IPT_TTL_LT) (Ne.symm a02) (Ne.symm a12) rfl,
    ttl_mt_fst_gt c4 (ttl_with_mode w4 c4.IPT_TTL_GT) (Ne.symm a03) (Ne.symm a13)
      (Ne.symm a23) rfl,
    hl_mt6_fst_eq c6 (hl_with_mode w6 c6.IP6T_HL_EQ) rfl,
    hl_mt6_fst_ne c6 (hl_with_mode w6 c6.IP6T_HL_NE) (Ne.symm b01) rfl,
    hl_mt6_fst_lt c6 (hl_with_mode w6 c6.IP6T_HL_LT) (Ne.symm b02) (Ne.symm b12) rfl,
    hl_mt6_fst_gt c6 (hl_with_mode w6 c6.IP6T_HL_GT) (Ne.symm b03) (Ne.symm b13)
      (Ne.symm b23) rfl]
  simp only [ttl_with_mode, hl_with_mode]
  constructor
  · rcases Nat.lt_trichotomy w4.skb.ip_hdr.ttl w4.info.ttl with h | h | h
    · have h1 : w4.skb.ip_hdr.ttl ≠ w4.info.ttl := by omega
      have h2 : ¬ w4.skb.ip_hdr.ttl > w4.info.ttl := by omega
      simp [h, h1, h2]
    · simp [h]
    · have h1 : w4.skb.ip_hdr.ttl ≠ w4.info.ttl := by omega
      have h2 : ¬ w4.skb.ip_hdr.ttl < w4.info.ttl := by omega
      simp [h, h1, h2]
  · rcases Nat.lt_trichotomy w6.skb.ipv6_hdr.hop_limit w6.info.hop_limit with h | h | h
    · have h1 : w6.skb.ipv6_hdr.hop_limit ≠ w6.info.hop_limit := by omega
      have h2 : ¬ w6.skb.ipv6_hdr.hop_limit > w6.info.hop_limit := by omega
      simp [h, h1, h2]
    · simp [h]
    · have h1 : w6.skb.ipv6_hdr.hop_limit ≠ w6.info.hop_limit := by omega
      have h2 : ¬ w6.skb.ipv6_hdr.hop_limit < w6.info.hop_limit := by omega
      simp [h, h1, h2]

/-- Witness of C10 at field 64 and threshold 50: of EQ, LT, GT only GT matches,
and NE matches. -/
theorem mt_modes_partition_witness :
    ipt_ttl_h.std.distinct ∧ ip6t_hl_h.std.distinct ∧
    (ttl_mt ipt_ttl_h.std (ttl_with_mode (ttl_world 64 0 50) 1)).1 =
      !(ttl_mt ipt_ttl_h.std (ttl_with_mode (ttl_world 64 0 50) 0)).1 ∧
    (hl_mt6 ip6t_hl_h.std (hl_with_mode (hl_world 64 0 50) 1)).1 =
      !(hl_mt6 ip6t_hl_h.std (hl_with_mode (hl_world 64 0 50) 0)).1 ∧
    (ttl_mt ipt_ttl_h.std (ttl_world 64 0 50)).1 = false ∧
    (ttl_mt ipt_ttl_h.std (ttl_world 64 1 50)).1 = true ∧
    (ttl_mt ipt_ttl_h.std (ttl_world 64 2 50)).1 = false ∧
    (ttl_mt ipt_ttl_h.std (ttl_world 64 3 50)).1 = true :=
  ⟨by decide, by decide,
   (mt_modes_partition ipt_ttl_h.std ip6t_hl_h.std (by decide) (by decide)
      (ttl_world 64 0 50) (hl_world 64 0 50)).1.2.1,
   (mt_modes_partition ipt_ttl_h.std ip6t_hl_h.std (by decide) (by decide)
      (ttl_world 64 0 50) (hl_world 64 0 50)).2.2.1,
   by decide, by decide, by decide, by decide⟩

/-! ## C11: rules that match no packet -/

/-- C11: a rule in mode LT with threshold 0 and a rule in mode GT with threshold
255 match no packet whose field is in 0..255, for `ttl_mt` and for `hl_mt6`;
for every other threshold `t` in 0..255 (`t ≠ 0` in mode LT, `t ≠ 255` in mode
GT) some field value in 0..255 matches. -/
theorem mt_empty_rules (c4 : ipt_ttl_h) (c6 : ip6t_hl_h)
    (h4 : c4.distinct) (h6 : c6.distinct) (t : Nat) (ht : t < 256) :
    ((∀ w : xt_world ipt_ttl_info, w.skb.ip_hdr.ttl < 256 →
        w.info.mode = c4.IPT_TTL_LT → w.info.ttl = 0 → (ttl_mt c4 w).1 = false) ∧
      (∀ w : xt_world ipt_ttl_info, w.skb.ip_hdr.ttl < 256 →
        w.info.mode = c4.IPT_TTL_GT → w.info.ttl = 255 → (ttl_mt c4 w).1 = false) ∧
      (t ≠ 0 → ∃ v, v < 256 ∧ (ttl_mt c4 (ttl_world v c4.IPT_TTL_LT t)).1 = true) ∧
      (t ≠ 255 → ∃ v, v < 256 ∧ (ttl_mt c4 (ttl_world v c4.IPT_TTL_GT t)).1 = true)) ∧
    ((∀ w : xt_world ip6t_hl_info, w.skb.ipv6_hdr.hop_limit < 256 →
        w.info.mode = c6.IP6T_HL_LT → w.info.hop_limit = 0 → (hl_mt6 c6 w).1 = false) ∧
      (∀ w : xt_world ip6t_hl_info, w.skb.ipv6_hdr.hop_limit < 256 →
        w.info.mode = c6.IP6T_HL_GT → w.info.hop_limit = 255 → (hl_mt6 c6 w).1 = false) ∧
      (t ≠ 0 → ∃ v, v < 256 ∧ (hl_mt6 c6 (hl_world v c6.IP6T_HL_LT t)).1 = true) ∧
      (t ≠ 255 → ∃ v, v < 256 ∧ (hl_mt6 c6 (hl_world v c6.IP6T_HL_GT t)).1 = true)) := by
  obtain ⟨_, a02, a03, a12, a13, a23⟩ := h4
  obtain ⟨_, b02, b03, b12, b13, b23⟩ := h6
  refine ⟨⟨?_, ?_, ?_, ?_⟩, ⟨?_, ?_, ?_, ?_⟩⟩
  · intro w _ hm h0
    rw [ttl_mt_fst_lt c4 w (Ne.symm a02) (Ne.symm a12) hm, h0]
    exact decide_eq_false (Nat.not_lt_zero _)
  · intro w hv hm h255
    rw [ttl_mt_fst_gt c4 w (Ne.symm a03) (Ne.symm a13) (Ne.symm a23) hm, h255]
    exact decide_eq_false (by omega)
  · intro h0
    refine ⟨0, by decide, ?_⟩
    rw [ttl_mt_fst_lt c4 (ttl_world 0 c4.IPT_TTL_LT t) (Ne.symm a02) (Ne.symm a12) rfl]
    exact decide_eq_true (Nat.pos_of_ne_zero h0)
  · intro h255
    refine ⟨255, by decide, ?_⟩
    rw [ttl_mt_fst_gt c4 (ttl_world 255 c4.IPT_TTL_GT t) (Ne.symm a03) (Ne.symm a13)
      (Ne.symm a23) rfl]
    exact decide_eq_true (show 255 > t by omega)
  · intro w _ hm h0
    rw [hl_mt6_fst_lt c6 w (Ne.symm b02) (Ne.symm b12) hm, h0]
    exact decide_eq_false (Nat.not_lt_zero _)
  · intro w hv hm h255
    rw [hl_mt6_fst_gt c6 w (Ne.symm b03) (Ne.symm b13) (Ne.symm b23) hm, h255]
    exact decide_eq_false (by omega)
  · intro h0
    refine ⟨0, by decide, ?_⟩
    rw [hl_mt6_fst_lt c6 (hl_world 0 c6.IP6T_HL_LT t) (Ne.symm b02) (Ne.symm b12) rfl]
    exact decide_eq_true (Nat.pos_of_ne_zero h0)
  · intro h255
    refine ⟨255, by decide, ?_⟩
    rw [hl_mt6_fst_gt c6 (hl_world 255 c6.IP6T_HL_GT t) (Ne.symm b03) (Ne.symm b13)
      (Ne.symm b23) rfl]
    exact decide_eq_true (show 255 > t by omega)

/-- Witness of C11: with threshold 0 the rule LT does not match the packet with
field 0, the rule GT with threshold 255 does not match the packet with field
255, and with threshold 50 some packet matches LT. -/
theorem mt_empty_rules_witness :
    ipt_ttl_h.std.distinct ∧ ip6t_hl_h.std.distinct ∧ 50 < 256 ∧
    (ttl_mt ipt_ttl_h.std (ttl_world 0 2 0)).1 = false ∧
    (hl_mt6 ip6t_hl_h.std (hl_world 255 3 255)).1 = false ∧
    (∃ v, v < 256 ∧ (ttl_mt ipt_ttl_h.std (ttl_world v 2 50)).1 = true) :=
  ⟨by decide, by decide, by decide,
   (mt_empty_rules ipt_ttl_h.std ip6t_hl_h.std (by decide) (by decide) 50 (by decide)).1.1
      (ttl_world 0 2 0) (by decide) rfl rfl,
   (mt_empty_rules ipt_ttl_h.std ip6t_hl_h.std (by decide) (by decide) 50 (by decide)).2.2.1
      (hl_world 255 3 255) (by decide) rfl rfl,
   (mt_empty_rules ipt_ttl_h.std ip6t_hl_h.std (by decide) (by decide) 50 (by decide)).1.2.2.1
      (by decide)⟩

/-! ## C12: the warnings of hl_tg6_check -/

theorem hl_tg6_mode_warning_ne (m : Nat) :
    ("ip6t_HL: invalid or unknown Mode " ++ toString m ++ "\n" : String) ≠
      "ip6t_HL: increment/decrement doesn't make sense with value 0\n" := by
  intro h
  have h2 := congrArg (fun s => s.data.take 12) h
  have e1 : ("ip6t_HL: invalid or unknown Mode " : String).data =
      "ip6t_HL: inv".data ++ "alid or unknown Mode ".data := by decide
  simp only [String.data_append, e1, List.append_assoc] at h2
  rw [List.take_append_of_le_length (by decide)] at h2
  revert h2
  decide

theorem hl_tg6_check_snd (c : ip6t_HL_h) (w : xt_world ip6t_HL_info) :
    (hl_tg6_check c w).2 =
      if w.info.mode > c.IP6T_HL_MAXMODE then
        printk kern_level.KERN_WARNING
          ("ip6t_HL: invalid or unknown Mode " ++ toString w.info.mode ++ "\n") w
      else if w.info.mode ≠ c.IP6T_HL_SET ∧ w.info.hop_limit = 0 then
        printk kern_level.KERN_WARNING
          "ip6t_HL: increment/decrement doesn't make sense with value 0\n" w
      else w := by
  unfold hl_tg6_check
  dsimp only
  split_ifs <;> rfl

/-- C12: `hl_tg6_check` appends exactly one warning to the kernel log when it
rejects and leaves the log as it was when it accepts; when the mode is above
`IP6T_HL_MAXMODE` the one warning is "invalid or unknown Mode", whatever the
operand (0 included), and it is not the "increment/decrement doesn't make sense
with value 0" warning, which is the one warning of a rejection with the mode
within range. -/
theorem hl_tg6_check_warnings (c : ip6t_HL_h) (w : xt_world ip6t_HL_info) :
    ((hl_tg6_check c w).1 = false →
      (∃ r, (hl_tg6_check c w).2.klog = w.klog ++ [r]) ∧
        (hl_tg6_check c w).2.klog.length = w.klog.length + 1) ∧
    ((hl_tg6_check c w).1 = true → (hl_tg6_check c w).2.klog = w.klog) ∧
    (w.info.mode > c.IP6T_HL_MAXMODE →
      (hl_tg6_check c w).2.klog = w.klog ++
        [{ level := kern_level.KERN_WARNING,
           text := "ip6t_HL: invalid or unknown Mode " ++ toString w.info.mode ++ "\n" }] ∧
      ({ level := kern_level.KERN_WARNING,
         text := "ip6t_HL: invalid or unknown Mode " ++ toString w.info.mode ++ "\n" }
          : printk_record) ≠
        { level := kern_level.KERN_WARNING,
          text := "ip6t_HL: increment/decrement doesn't make sense with value 0\n" }) ∧
    (¬ w.info.mode > c.IP6T_HL_MAXMODE → (hl_tg6_check c w).1 = false →
      (hl_tg6_check c w).2.klog = w.klog ++
        [{ level := kern_level.KERN_WARNING,
           text := "ip6t_HL: increment/decrement doesn't make sense with value 0\n" }]) := by
  rw [hl_tg6_check_fst, hl_tg6_check_snd]
  by_cases h1 : w.info.mode > c.IP6T_HL_MAXMODE
  · rw [if_pos h1]
    refine ⟨fun _ => ⟨⟨_, rfl⟩, by simp [printk]⟩, fun h => ?_, fun _ => ⟨rfl, ?_⟩,
      fun h => absurd h1 h⟩
    · rw [decide_eq_true_iff] at h
      exact absurd (Or.inl h1) h
    · intro h
      exact hl_tg6_mode_warning_ne w.info.mode (congrArg printk_record.text h)
  · rw [if_neg h1]
    by_cases h2 : w.info.mode ≠ c.IP6T_HL_SET ∧ w.info.hop_limit = 0
    · rw [if_pos h2]
      refine ⟨fun _ => ⟨⟨_, rfl⟩, by simp [printk]⟩, fun h => ?_, fun h => absurd h h1,
        fun _ _ => rfl⟩
      rw [decide_eq_true_iff] at h
      exact absurd (Or.inr h2) h
    · rw [if_neg h2]
      refine ⟨fun h => ?_, fun _ => rfl, fun h => absurd h h1, fun _ h => ?_⟩
      · rw [decide_eq_false_iff_not, not_not] at h
        rcases h with h | h
        · exact absurd h h1
        · exact absurd h h2
      · rw [decide_eq_false_iff_not, not_not] at h
        rcases h with h | h
        · exact absurd h h1
        · exact absurd h h2

/-- Witness of C12: mode 200 with operand 0 logs the one line about the mode;
mode INC with operand 0 logs the one line about the operand; SET with operand 0
logs nothing. -/
theorem hl_tg6_check_warnings_witness :
    (hl_tg6_check ip6t_HL_h.std (HL_world 200 0)).2.klog = [] ++
      [{ level := kern_level.KERN_WARNING,
         text := "ip6t_HL: invalid or unknown Mode 200\n" }] ∧
    (hl_tg6_check ip6t_HL_h.std (HL_world 1 0)).2.klog = [] ++
      [{ level := kern_level.KERN_WARNING,
         text := "ip6t_HL: increment/decrement doesn't make sense with value 0\n" }] ∧
    (hl_tg6_check ip6t_HL_h.std (HL_world 0 0)).2.klog = [] :=
  ⟨((hl_tg6_check_warnings ip6t_HL_h.std (HL_world 200 0)).2.2.1 (by decide)).1,
   (hl_tg6_check_warnings ip6t_HL_h.std (HL_world 1 0)).2.2.2 (by decide) (by decide),
   (hl_tg6_check_warnings ip6t_HL_h.std (HL_world 0 0)).2.1 (by decide)⟩

end XtHL
